import Mathlib

/-!
Shallow embedding of the loopGo2 step-sequencer drum machine (src/script.js,
primary variant, lines 1-372) and the routing/transport claims about it.

Conventions of the embedding:
* Web Audio numeric values (times, frequencies, gains, timer delays) are
  modelled as rationals `ℚ`; the JavaScript arithmetic involved is exact on
  the literals appearing in the source.
* The Web Audio node graph is modelled by a list of directed edges between
  named nodes; `connect` appends an edge, `disconnect(dest)` removes it and
  throws when the edge is absent (modelled with `Except`).
* A triggered voice is modelled as the record of scheduled parameter events,
  start/stop times, the per-note route built by `buildChainForSource`, and
  the wall-clock teardown delay passed to `setTimeout`.
-/

namespace LoopGo

/-- The global `fxActive` map (script.js lines 75-84): one boolean per key.
The object has exactly these eight keys. -/
structure FxActive where
  lowpass : Bool
  highpass : Bool
  distortion : Bool
  delay : Bool
  reverb : Bool
  pitch : Bool
  chorus : Bool
  mute : Bool
deriving Repr, DecidableEq

/-- The initial `fxActive` value: every effect disabled. -/
def FxActive.initial : FxActive :=
  ⟨false, false, false, false, false, false, false, false⟩

/-- JavaScript property access `fxActive[track]` used as a truth value:
an existing key yields its boolean, any other key yields `undefined`,
which is falsy. -/
def FxActive.lookup (fx : FxActive) (key : String) : Bool :=
  match key with
  | "lowpass" => fx.lowpass
  | "highpass" => fx.highpass
  | "distortion" => fx.distortion
  | "delay" => fx.delay
  | "reverb" => fx.reverb
  | "pitch" => fx.pitch
  | "chorus" => fx.chorus
  | "mute" => fx.mute
  | _ => false

/-- The audio nodes that participate in per-voice routing: the per-note
source gain, the six shared effect units, and the master bus. -/
inductive Node where
  | source
  | lowpass
  | highpass
  | distortion
  | chorus
  | delay
  | reverb
  | master
deriving Repr, DecidableEq

/-- A directed connection edge `src.connect(dest)`. -/
abbrev Edge := Node × Node

/-- `buildChainForSource(sourceGain, track)` (script.js lines 103-149):
returns the list of connection edges it creates, in creation order
(`connections` in the source).  When `fxActive[track]` is truthy it chains
the source through every enabled effect in the fixed textual order
lowpass, highpass, distortion, chorus, delay, reverb and finally to the
master bus; otherwise it connects the source directly to the master bus. -/
def buildChainForSource (fx : FxActive) (track : String) : List Edge :=
  if fx.lookup track then
    let conns : List Edge := []
    let current := Node.source
    let (conns, current) :=
      if fx.lowpass then (conns ++ [(current, Node.lowpass)], Node.lowpass)
      else (conns, current)
    let (conns, current) :=
      if fx.highpass then (conns ++ [(current, Node.highpass)], Node.highpass)
      else (conns, current)
    let (conns, current) :=
      if fx.distortion then (conns ++ [(current, Node.distortion)], Node.distortion)
      else (conns, current)
    let (conns, current) :=
      if fx.chorus then (conns ++ [(current, Node.chorus)], Node.chorus)
      else (conns, current)
    let (conns, current) :=
      if fx.delay then (conns ++ [(current, Node.delay)], Node.delay)
      else (conns, current)
    let (conns, current) :=
      if fx.reverb then (conns ++ [(current, Node.reverb)], Node.reverb)
      else (conns, current)
    conns ++ [(current, Node.master)]
  else
    [(Node.source, Node.master)]

/-- One scheduled AudioParam automation event. -/
inductive ParamEvent where
  | setValue (value time : ℚ)
  | expRamp (target time : ℚ)
deriving Repr, DecidableEq

/-- A triggered voice: oscillator type, its scheduled frequency and gain
automation events, oscillator start/stop times, the route edges recorded by
`buildChainForSource`, and the `setTimeout` teardown delay in milliseconds. -/
structure Voice where
  oscType : String
  freqEvents : List ParamEvent
  gainEvents : List ParamEvent
  startTime : ℚ
  stopTime : ℚ
  chain : List Edge
  cleanupDelayMs : ℚ
deriving Repr, DecidableEq

/-- The value from which the amplitude envelope (and hence the exponential
decay ramp) starts: the first `setValueAtTime` on the gain param. -/
def Voice.envelopeStart (v : Voice) : Option ℚ :=
  match v.gainEvents with
  | ParamEvent.setValue x _ :: _ => some x
  | _ => none

/-- The initial scheduled oscillator frequency: the first `setValueAtTime`
on the frequency param. -/
def Voice.freqStart (v : Voice) : Option ℚ :=
  match v.freqEvents with
  | ParamEvent.setValue x _ :: _ => some x
  | _ => none

/-- The target values of all exponential ramps scheduled on the voice. -/
def Voice.rampTargets (v : Voice) : List ℚ :=
  (v.freqEvents ++ v.gainEvents).filterMap fun e =>
    match e with
    | ParamEvent.expRamp x _ => some x
    | _ => none

/-- `playKick(time, volume)` (script.js lines 168-197).  Sine oscillator,
frequency 150 Hz gliding exponentially to 0.001 over 0.5 s, gain set to the
caller's `volume` then ramped exponentially to 0.001 over 0.5 s.  A first
chain built with a wrong track argument is immediately cleaned up again
(lines 182-184, net connection effect nil); the route actually kept is
`buildChainForSource(gain, "kick")`.  Teardown is scheduled
`(0.5 + 0.05) * 1000` ms after the trigger. -/
def playKick (fx : FxActive) (time volume : ℚ) : Voice :=
  { oscType := "sine"
    freqEvents := [ParamEvent.setValue 150 time, ParamEvent.expRamp 0.001 (time + 0.5)]
    gainEvents := [ParamEvent.setValue volume time, ParamEvent.expRamp 0.001 (time + 0.5)]
    startTime := time
    stopTime := time + 0.5
    chain := buildChainForSource fx "kick"
    cleanupDelayMs := (0.5 + 0.05) * 1000 }

/-- `playSnare(time, volume)` (script.js lines 199-227).  Noise buffer
through a highpass filter; gain set to `volume` then ramped exponentially
to 0.01 over 0.2 s; route `buildChainForSource(gain, "snare")`; teardown
`(0.2 + 0.05) * 1000` ms after trigger.  (The noise source has no frequency
automation.) -/
def playSnare (fx : FxActive) (time volume : ℚ) : Voice :=
  { oscType := "noise"
    freqEvents := []
    gainEvents := [ParamEvent.setValue volume time, ParamEvent.expRamp 0.01 (time + 0.2)]
    startTime := time
    stopTime := time + 0.2
    chain := buildChainForSource fx "snare"
    cleanupDelayMs := (0.2 + 0.05) * 1000 }

/-- `playBass(time, volume)` (script.js lines 229-250).  Square oscillator
at 55 Hz, or 110 Hz when `fxActive.pitch` is set; gain set to `volume` then
ramped exponentially to 0.001 over 0.5 s; route
`buildChainForSource(gain, "bass")`; teardown `(0.5 + 0.05) * 1000` ms
after trigger. -/
def playBass (fx : FxActive) (time volume : ℚ) : Voice :=
  { oscType := "square"
    freqEvents := [ParamEvent.setValue (if fx.pitch then 110 else 55) time]
    gainEvents := [ParamEvent.setValue volume time, ParamEvent.expRamp 0.001 (time + 0.5)]
    startTime := time
    stopTime := time + 0.5
    chain := buildChainForSource fx "bass"
    cleanupDelayMs := (0.5 + 0.05) * 1000 }

/-- The fixed C-major triad used by `playChord` (script.js line 253). -/
def chordFreqs : List ℚ := [261.63, 329.63, 392.0]

/-- `playChord(time, volume)` (script.js lines 252-276).  One sawtooth
oscillator per triad frequency (doubled when `fxActive.pitch` is set), each
with gain set to `volume` then ramped exponentially to 0.001 over 1 s, each
routed through `buildChainForSource(gain, "chord")`, each torn down
`(1 + 0.05) * 1000` ms after trigger. -/
def playChord (fx : FxActive) (time volume : ℚ) : List Voice :=
  chordFreqs.map fun freq =>
    { oscType := "sawtooth"
      freqEvents := [ParamEvent.setValue (if fx.pitch then freq * 2 else freq) time]
      gainEvents := [ParamEvent.setValue volume time, ParamEvent.expRamp 0.001 (time + 1)]
      startTime := time
      stopTime := time + 1
      chain := buildChainForSource fx "chord"
      cleanupDelayMs := (1 + 0.05) * 1000 }

/-- Sequencer / transport state (script.js lines 280-283 and the DOM
"playing" highlight class).  `highlighted` is the step index currently
carrying the "playing" class (the scheduler clears and re-sets it as one
action per tick), `timerPending` records whether a `setTimeout` reschedule
is outstanding. -/
structure SeqState where
  isPlaying : Bool
  currentStep : Nat
  bpm : ℚ
  timerPending : Bool
  highlighted : Option Nat
deriving Repr, DecidableEq

/-- The page-load state: step 0, 120 BPM, stopped. -/
def initialState : SeqState :=
  { isPlaying := false, currentStep := 0, bpm := 120
    timerPending := false, highlighted := none }

/-- `getInterval()` (script.js lines 285-287): `(60 / bpm) / 2` seconds
(eighth notes). -/
def getInterval (bpm : ℚ) : ℚ :=
  60 / bpm / 2

/-- The `tempoSlider` input handler (script.js lines 346-349):
`bpm = parseInt(e.target.value, 10)`.  The handler applies no clamp;
modelled for inputs whose string holds a decimal integer, for which
`parseInt` returns exactly that integer. -/
def tempoSliderInput (s : SeqState) (value : Int) : SeqState :=
  { s with bpm := (value : ℚ) }

/-- Track order by sequencer index in the scheduler (script.js lines
301-308): kick, bass, snare, chord. -/
def trackOrder : List String := ["kick", "bass", "snare", "chord"]

/-- The outcome of one scheduler invocation: the updated state, the voices
triggered (in sequencer order), and the `setTimeout` delay in milliseconds
used to reschedule. -/
structure TickResult where
  state : SeqState
  triggers : List Voice
  nextDelayMs : ℚ
deriving Repr, DecidableEq

/-- `scheduler()` (script.js lines 289-314).  Reads `audioCtx.currentTime`
as `now`; for each sequencer grid moves the "playing" highlight to the
current step and, when that step is active, triggers the track's generator
at `now` with the track's current slider volume; then advances
`currentStep = (currentStep + 1) % 8` and reschedules itself after
`getInterval() * 1000` ms, re-reading `bpm` at that moment.
`grid i j` is the active flag of step `j` of sequencer `i`, `vols i` the
sequencer's volume-slider value. -/
def scheduler (grid : Nat → Nat → Bool) (vols : Nat → ℚ) (fx : FxActive)
    (now : ℚ) (s : SeqState) : TickResult :=
  let step := s.currentStep
  let trig : Nat → List Voice := fun i =>
    if grid i step then
      match i with
      | 0 => [playKick fx now (vols 0)]
      | 1 => [playBass fx now (vols 1)]
      | 2 => [playSnare fx now (vols 2)]
      | 3 => playChord fx now (vols 3)
      | _ => []
    else []
  { state := { s with
      currentStep := (step + 1) % 8
      highlighted := some step
      timerPending := true }
    triggers := trig 0 ++ trig 1 ++ trig 2 ++ trig 3
    nextDelayMs := getInterval s.bpm * 1000 }

/-- The `stopBtn` click handler (script.js lines 339-344):
`isPlaying = false; clearTimeout(timer); currentStep = 0;` and the
"playing" class is removed from every step. -/
def stopHandler (s : SeqState) : SeqState :=
  { s with isPlaying := false, timerPending := false
           currentStep := 0, highlighted := none }

/-- The `playBtn` click handler (script.js lines 327-337): when not
already playing, set `isPlaying = true` and run `scheduler()` immediately;
otherwise do nothing (no tick, no reschedule). -/
def playHandler (grid : Nat → Nat → Bool) (vols : Nat → ℚ) (fx : FxActive)
    (now : ℚ) (s : SeqState) : TickResult :=
  if s.isPlaying then
    { state := s, triggers := [], nextDelayMs := 0 }
  else
    scheduler grid vols fx now { s with isPlaying := true }

namespace Variant2

/-- Transport state of the second variant in the source file (script.js
lines 374-378): `tempo` holds the raw slider value, `intervalMs` the delay
of the repeating `setInterval` timer while one is running (`intervalId`).
The DOM step grid and highlight handling of this variant play no role in
the claims about it and are not modelled. -/
structure State where
  isPlaying : Bool
  currentStep : Nat
  tempo : ℚ
  intervalMs : Option ℚ
deriving Repr, DecidableEq

/-- The load state of the second variant: stopped, step 0, tempo 120. -/
def initial : State :=
  { isPlaying := false, currentStep := 0, tempo := 120, intervalMs := none }

/-- `start()` (script.js lines 452-461): no-op when already playing;
otherwise sets `isPlaying` and starts a repeating timer whose delay
`(60 / tempo) * 1000` ms is computed once, from the tempo in force at
start time, and never recomputed while the timer runs. -/
def start (s : State) : State :=
  if s.isPlaying then s
  else { s with isPlaying := true, intervalMs := some (60 / s.tempo * 1000) }

/-- `stop()` (script.js lines 463-468): clears the running flag, cancels
the repeating timer and resets the step index to 0. -/
def stop (s : State) : State :=
  { s with isPlaying := false, intervalMs := none, currentStep := 0 }

/-- The tempo input handler of the second variant (script.js line 403):
`tempo = e.target.value`.  It mutates only the variable; the delay of an
already-running timer is left untouched. -/
def tempoInput (s : State) (v : ℚ) : State :=
  { s with tempo := v }

end Variant2

/-- `src.disconnect(dest)` on the audio graph `g` (a list of edges with
multiplicity): removes one occurrence of the edge, or throws an
`InvalidAccessError` when the edge is not present. -/
def disconnectEdge (g : List Edge) (e : Edge) : Except String (List Edge) :=
  if e ∈ g then Except.ok (g.erase e) else Except.error "InvalidAccessError"

/-- The `cleanup()` closure returned by `buildChainForSource` (script.js
lines 152-164): walk the recorded connections in reverse and disconnect
each, every call wrapped in `try { ... } catch (e) { /- ignore -/ }` so a
failed disconnect is swallowed and the loop continues.  Modelled in
`Except` so that an uncaught throw would surface as `Except.error`. -/
def cleanup (conns : List Edge) (g : List Edge) : Except String (List Edge) :=
  conns.reverse.foldlM
    (fun acc e =>
      match disconnectEdge acc e with
      | Except.ok g2 => Except.ok g2
      | Except.error _ => Except.ok acc)
    g

/-! ### Helper lemmas -/

/-- One `try/catch`-wrapped disconnect never surfaces an error. -/
lemma cleanupStep_ok (acc : List Edge) (e : Edge) :
    ∃ g2, (match disconnectEdge acc e with
           | Except.ok g2 => Except.ok g2
           | Except.error _ => Except.ok acc : Except String (List Edge)) = Except.ok g2 := by
  cases h : disconnectEdge acc e with
  | ok g2 => exact ⟨g2, by simp⟩
  | error msg => exact ⟨acc, by simp⟩

/-- The cleanup loop, from any graph state, returns normally. -/
lemma cleanup_loop_ok (l : List Edge) :
    ∀ g : List Edge,
      ∃ g2, (l.foldlM
        (fun acc e =>
          match disconnectEdge acc e with
          | Except.ok g2 => Except.ok g2
          | Except.error _ => Except.ok acc) g : Except String (List Edge)) = Except.ok g2 := by
  induction l with
  | nil => intro g; exact ⟨g, rfl⟩
  | cons e l ih =>
    intro g
    obtain ⟨g1, h1⟩ := cleanupStep_ok g e
    obtain ⟨g2, h2⟩ := ih g1
    refine ⟨g2, ?_⟩
    rw [List.foldlM_cons, h1]
    simpa using h2

/-- `cleanup` always returns normally. -/
lemma cleanup_ok (conns g : List Edge) :
    ∃ g2, cleanup conns g = Except.ok g2 := by
  unfold cleanup
  exact cleanup_loop_ok conns.reverse g

/-- On the empty graph every single disconnect throws, yet the loop returns
the empty graph unchanged. -/
lemma cleanup_loop_empty (l : List Edge) :
    (l.foldlM
      (fun acc e =>
        match disconnectEdge acc e with
        | Except.ok g2 => Except.ok g2
        | Except.error _ => Except.ok acc) ([] : List Edge) :
      Except String (List Edge)) = Except.ok [] := by
  induction l with
  | nil => rfl
  | cons e l ih =>
    rw [List.foldlM_cons]
    have h : disconnectEdge [] e = Except.error "InvalidAccessError" := by
      simp [disconnectEdge]
    rw [h]
    simpa using ih

/-! ### Claims -/

/-- C1: the per-voice route is claimed to pass through exactly the enabled
effect units in canonical order.  Evaluation at the failing input: with
only `lowpass` enabled and the track name `"kick"` that every kick voice
actually passes, `buildChainForSource` takes the dry branch (because
`fxActive["kick"]` is `undefined`) and connects the source directly to the
master bus; no edge touches the enabled lowpass unit. -/
theorem buildChainForSource_skips_enabled_lowpass :
    FxActive.lowpass ⟨true, false, false, false, false, false, false, false⟩ = true ∧
    buildChainForSource ⟨true, false, false, false, false, false, false, false⟩ "kick"
      = [(Node.source, Node.master)] ∧
    (buildChainForSource ⟨true, false, false, false, false, false, false, false⟩ "kick").countP
      (fun e => e.1 == Node.lowpass || e.2 == Node.lowpass) = 0 := by
  refine ⟨rfl, rfl, ?_⟩
  decide

/-- C2: for every state of `fxActive`, the track names the generators pass
("kick", "bass", "snare", "chord") are never keys of `fxActive`, so the
lookup is falsy and every triggered voice's route is the single direct
edge from its source gain to the master bus. -/
theorem allVoices_dry_routed (fx : FxActive) (t v : ℚ) :
    fx.lookup "kick" = false ∧ fx.lookup "bass" = false ∧
    fx.lookup "snare" = false ∧ fx.lookup "chord" = false ∧
    (playKick fx t v).chain = [(Node.source, Node.master)] ∧
    (playBass fx t v).chain = [(Node.source, Node.master)] ∧
    (playSnare fx t v).chain = [(Node.source, Node.master)] ∧
    (playChord fx t v).map Voice.chain =
      [[(Node.source, Node.master)], [(Node.source, Node.master)],
       [(Node.source, Node.master)]] := by
  refine ⟨rfl, rfl, rfl, rfl, rfl, rfl, rfl, ?_⟩
  simp [playChord, chordFreqs, buildChainForSource, FxActive.lookup]

/-- C3 counterexample: the tempo input handler applies no minimum-1 guard:
feeding it the integer value -5 stores bpm = -5 verbatim, making the
computed interval negative, and the scheduler then reschedules itself with
a negative `setTimeout` delay. -/
theorem tempoInput_unguarded_negative_interval :
    (tempoSliderInput initialState (-5)).bpm = -5 ∧
    getInterval (tempoSliderInput initialState (-5)).bpm < 0 ∧
    (scheduler (fun _ _ => false) (fun _ => 1) FxActive.initial 0
        (tempoSliderInput initialState (-5))).nextDelayMs < 0 := by
  refine ⟨rfl, ?_, ?_⟩ <;>
    norm_num [tempoSliderInput, initialState, getInterval, scheduler]

/-- C3 (amended): for every tempo in [1, 300] the computed interval equals
(60/tempo)/2, is strictly positive, and the scheduler's reschedule delay is
that interval in milliseconds, also strictly positive; the handler itself,
however, performs no clamping (see the counterexample). -/
theorem getInterval_pos_on_valid_bpm (grid : Nat → Nat → Bool) (vols : Nat → ℚ)
    (fx : FxActive) (now : ℚ) (s : SeqState)
    (h1 : 1 ≤ s.bpm) (h2 : s.bpm ≤ 300) :
    getInterval s.bpm = 60 / s.bpm / 2 ∧
    0 < getInterval s.bpm ∧
    (scheduler grid vols fx now s).nextDelayMs = getInterval s.bpm * 1000 ∧
    0 < (scheduler grid vols fx now s).nextDelayMs ∧ s.bpm ≤ 300 := by
  have hb : 0 < s.bpm := by linarith
  have hpos : 0 < getInterval s.bpm := by
    have : 0 < (60 : ℚ) / s.bpm := by positivity
    have : 0 < (60 : ℚ) / s.bpm / 2 := by positivity
    simpa [getInterval] using this
  refine ⟨rfl, hpos, rfl, ?_, h2⟩
  have : (scheduler grid vols fx now s).nextDelayMs = getInterval s.bpm * 1000 := rfl
  rw [this]
  positivity

/-- C3 witness: the amended theorem applied at the page-load state
(bpm = 120). -/
theorem getInterval_pos_on_valid_bpm_witness :
    (1 : ℚ) ≤ initialState.bpm ∧ initialState.bpm ≤ 300 ∧
    (getInterval initialState.bpm = 60 / initialState.bpm / 2 ∧
     0 < getInterval initialState.bpm ∧
     (scheduler (fun _ _ => false) (fun _ => 1) FxActive.initial 0
        initialState).nextDelayMs = getInterval initialState.bpm * 1000 ∧
     0 < (scheduler (fun _ _ => false) (fun _ => 1) FxActive.initial 0
        initialState).nextDelayMs ∧ initialState.bpm ≤ 300) :=
  ⟨by norm_num [initialState], by norm_num [initialState],
   getInterval_pos_on_valid_bpm (fun _ _ => false) (fun _ => 1) FxActive.initial 0
     initialState (by norm_num [initialState]) (by norm_num [initialState])⟩

/-- C4 counterexample: triggering a kick with caller-supplied volume 0
schedules the amplitude envelope to start from exactly 0 — the raw volume,
with no positive floor applied — followed by an exponential ramp. -/
theorem playKick_zero_volume_unclamped :
    (playKick FxActive.initial 0 0).envelopeStart = some 0 ∧
    (playKick FxActive.initial 0 0).gainEvents
      = [ParamEvent.setValue 0 0, ParamEvent.expRamp 0.001 (0 + 0.5)] := by
  exact ⟨rfl, rfl⟩

/-- C4 (amended): the caller-supplied volume is used directly, unclamped,
as the envelope start value of every generator (so volume 0 starts a ramp
from 0); every exponential ramp *target*, however, is one of the positive
literal constants 0.001 / 0.01, so no ramp is scheduled toward a
non-positive value. -/
theorem envelope_start_unclamped_targets_positive (fx : FxActive) (t v : ℚ) :
    (playKick fx t v).envelopeStart = some v ∧
    (playSnare fx t v).envelopeStart = some v ∧
    (playBass fx t v).envelopeStart = some v ∧
    (playChord fx t v).map Voice.envelopeStart = [some v, some v, some v] ∧
    (playKick fx t v).rampTargets = [0.001, 0.001] ∧
    (playSnare fx t v).rampTargets = [0.01] ∧
    (playBass fx t v).rampTargets = [0.001] ∧
    (playChord fx t v).map Voice.rampTargets = [[0.001], [0.001], [0.001]] ∧
    (0 : ℚ) < 0.001 ∧ (0 : ℚ) < 0.01 := by
  refine ⟨rfl, rfl, rfl, ?_, ?_, ?_, ?_, ?_, by norm_num, by norm_num⟩ <;>
    simp [playKick, playSnare, playBass, playChord, chordFreqs,
      Voice.envelopeStart, Voice.rampTargets]

/-- C5 counterexample: in the `setInterval`-driven variant, starting at
tempo 120 installs a repeating timer with delay 500 ms computed once;
changing the tempo to 60 mid-run updates the variable but leaves the
running delay at 500 ms — not the 1000 ms the new tempo mandates — and
only a stop followed by a new start picks the new tempo up. -/
theorem setIntervalVariant_ignores_tempo_change :
    (Variant2.start Variant2.initial).intervalMs = some 500 ∧
    (Variant2.tempoInput (Variant2.start Variant2.initial) 60).tempo = 60 ∧
    (Variant2.tempoInput (Variant2.start Variant2.initial) 60).intervalMs
      = some 500 ∧
    60 / (60 : ℚ) * 1000 = 1000 ∧
    (500 : ℚ) < 1000 ∧
    (Variant2.start (Variant2.stop
        (Variant2.tempoInput (Variant2.start Variant2.initial) 60))).intervalMs
      = some 1000 := by
  refine ⟨?_, ?_, ?_, by norm_num, by norm_num, ?_⟩ <;>
    norm_num [Variant2.start, Variant2.stop, Variant2.tempoInput, Variant2.initial]

/-- C5 (amended): the `setTimeout`-driven scheduler of the first variant
re-reads the tempo on every rescheduling cycle — after a tempo change its
next reschedule delay is `getInterval(newBpm) * 1000`, independent of the
previous tempo, with the running flag and step index untouched; in the
`setInterval`-driven second variant, however, a tempo change leaves the
delay of the running timer unchanged, and the new tempo is only picked up
by a stop followed by a new start. -/
theorem tempo_reread_depends_on_variant (grid : Nat → Nat → Bool)
    (vols : Nat → ℚ) (fx : FxActive) (now : ℚ) (s : SeqState) (newBpm : Int)
    (t : Variant2.State) (v : ℚ) :
    (scheduler grid vols fx now (tempoSliderInput s newBpm)).nextDelayMs
      = getInterval (newBpm : ℚ) * 1000 ∧
    (scheduler grid vols fx now (tempoSliderInput s newBpm)).nextDelayMs
      = 60 / (newBpm : ℚ) / 2 * 1000 ∧
    (tempoSliderInput s newBpm).isPlaying = s.isPlaying ∧
    (tempoSliderInput s newBpm).currentStep = s.currentStep ∧
    (Variant2.tempoInput t v).intervalMs = t.intervalMs ∧
    (Variant2.start (Variant2.stop (Variant2.tempoInput t v))).intervalMs
      = some (60 / v * 1000) := by
  refine ⟨rfl, rfl, rfl, rfl, rfl, ?_⟩
  simp [Variant2.start, Variant2.stop, Variant2.tempoInput]

/-- C6: stopping from any state clears the running flag, cancels the
pending reschedule, resets the step index to 0 and removes every
"now playing" highlight; a subsequent press of play runs the scheduler
from step 0: it highlights step 0 and advances the index to 1. -/
theorem stop_resets_transport (grid : Nat → Nat → Bool) (vols : Nat → ℚ)
    (fx : FxActive) (now : ℚ) (s : SeqState) :
    (stopHandler s).isPlaying = false ∧
    (stopHandler s).timerPending = false ∧
    (stopHandler s).currentStep = 0 ∧
    (stopHandler s).highlighted = none ∧
    (playHandler grid vols fx now (stopHandler s)).state.isPlaying = true ∧
    (playHandler grid vols fx now (stopHandler s)).state.highlighted = some 0 ∧
    (playHandler grid vols fx now (stopHandler s)).state.currentStep = 1 := by
  refine ⟨rfl, rfl, rfl, rfl, ?_, ?_, ?_⟩ <;>
    simp [playHandler, stopHandler, scheduler]

/-- C7: a chord trigger creates exactly 3 oscillators, all started at the
scheduled time, at 261.63 / 329.63 / 392.0 Hz with "pitch" off and exactly
the doubled 523.26 / 659.26 / 784.0 Hz with "pitch" on. -/
theorem playChord_three_oscillators (fx : FxActive) (t v : ℚ) :
    (playChord fx t v).length = 3 ∧
    (playChord fx t v).map Voice.startTime = [t, t, t] ∧
    (playChord fx t v).map Voice.freqStart =
      (if fx.pitch then [some 523.26, some 659.26, some 784.0]
       else [some 261.63, some 329.63, some 392.0]) := by
  refine ⟨rfl, by simp [playChord, chordFreqs], ?_⟩
  rcases fx with ⟨l, h, d, dl, r, p, c, m⟩
  cases p <;> simp [playChord, chordFreqs, Voice.freqStart] <;> norm_num

/-- C8: every generator's teardown `setTimeout` delay is exactly
`(duration + 0.05) * 1000` milliseconds, i.e. teardown runs 50 ms after
the oscillator's scheduled stop time — strictly after the sound ends. -/
theorem teardown_after_stop (fx : FxActive) (t v : ℚ) :
    (playKick fx t v).cleanupDelayMs = (0.5 + 0.05) * 1000 ∧
    t + (playKick fx t v).cleanupDelayMs / 1000 = (playKick fx t v).stopTime + 0.05 ∧
    (playKick fx t v).stopTime < t + (playKick fx t v).cleanupDelayMs / 1000 ∧
    (playSnare fx t v).cleanupDelayMs = (0.2 + 0.05) * 1000 ∧
    t + (playSnare fx t v).cleanupDelayMs / 1000 = (playSnare fx t v).stopTime + 0.05 ∧
    (playSnare fx t v).stopTime < t + (playSnare fx t v).cleanupDelayMs / 1000 ∧
    (playBass fx t v).cleanupDelayMs = (0.5 + 0.05) * 1000 ∧
    t + (playBass fx t v).cleanupDelayMs / 1000 = (playBass fx t v).stopTime + 0.05 ∧
    (playBass fx t v).stopTime < t + (playBass fx t v).cleanupDelayMs / 1000 ∧
    (playChord fx t v).map Voice.cleanupDelayMs
      = [(1 + 0.05) * 1000, (1 + 0.05) * 1000, (1 + 0.05) * 1000] ∧
    (playChord fx t v).map Voice.stopTime = [t + 1, t + 1, t + 1] ∧
    t + (1 + 0.05) * 1000 / 1000 = (t + 1) + 0.05 ∧
    t + 1 < t + (1 + 0.05) * 1000 / 1000 := by
  refine ⟨rfl, ?_, ?_, rfl, ?_, ?_, rfl, ?_, ?_,
    by simp [playChord, chordFreqs], by simp [playChord, chordFreqs], ?_, ?_⟩ <;>
    norm_num [playKick, playSnare, playBass] <;> ring

/-- C9 counterexample: triggering a bass at caller volume 1 sets the
envelope start to 1 itself, strictly greater than the claimed 1 × 0.5;
likewise each chord oscillator gets 1, strictly greater than the claimed
1 × 0.25. -/
theorem bass_chord_volume_not_scaled :
    (playBass FxActive.initial 0 1).envelopeStart = some 1 ∧
    (1 : ℚ) * 0.5 < 1 ∧
    (playChord FxActive.initial 0 1).map Voice.envelopeStart
      = [some 1, some 1, some 1] ∧
    (1 : ℚ) * 0.25 < 1 := by
  refine ⟨rfl, by norm_num, ?_, by norm_num⟩
  simp [playChord, chordFreqs, Voice.envelopeStart]

/-- C9 (amended): the bass envelope starts at the caller-supplied volume v
itself (the ×0.5 of the claim exists only as the 0.5 default value used
when the argument is omitted), with a square oscillator at 55 Hz —
110 Hz when "pitch" is on; each chord oscillator's envelope likewise
starts at v itself (0.2 being the chord's default volume). -/
theorem bass_chord_envelope_start (fx : FxActive) (t v : ℚ) :
    (playBass fx t v).oscType = "square" ∧
    (playBass fx t v).freqStart = some (if fx.pitch then 110 else 55) ∧
    (playBass fx t v).envelopeStart = some v ∧
    (playChord fx t v).map Voice.envelopeStart = [some v, some v, some v] := by
  refine ⟨rfl, ?_, rfl, ?_⟩
  · rcases fx with ⟨l, h, d, dl, r, p, c, m⟩
    cases p <;> simp [playBass, Voice.freqStart]
  · simp [playChord, chordFreqs, Voice.envelopeStart]

/-- C10: `cleanup` wraps every disconnect in try/catch, so it returns
normally from every graph state — in particular a second `cleanup` call on
the same recorded connections also returns normally, and even on the empty
graph (where every raw disconnect throws) it completes and leaves the
graph unchanged. -/
theorem cleanup_never_throws (conns g : List Edge) :
    (∃ g1 g2, cleanup conns g = Except.ok g1 ∧ cleanup conns g1 = Except.ok g2) ∧
    cleanup conns [] = Except.ok [] := by
  constructor
  · obtain ⟨g1, h1⟩ := cleanup_ok conns g
    obtain ⟨g2, h2⟩ := cleanup_ok conns g1
    exact ⟨g1, g2, h1, h2⟩
  · unfold cleanup
    exact cleanup_loop_empty conns.reverse

end LoopGo
